import Mathlib

/-!
Shallow embedding of the ILI9341 3.2" TFT LCD driver
(src/Src/ili9341_tft_lcd_driver.c, src/Inc/ili9341_tft_lcd_driver.h).

The driver talks to the display over DMA-SPI plus three GPIO lines
(CS, RESET, D/C).  We embed the observable behaviour of the C code as a
trace of events (GPIO pin writes, delays, SPI transmissions) threaded
through an explicit driver state.  The SPI transport is modelled as an
environment function from the index of a transmit call to the
HAL_StatusTypeDef value that HAL_SPI_Transmit_DMA returns for it.
All machine integers are Nat with explicit truncation where the C code
narrows a value.
-/

namespace ILI9341

/-! ### Status code values (stm32 HAL_StatusTypeDef and ILI9341_Status) -/

/-- HAL_OK value of HAL_StatusTypeDef. -/
def HAL_OK : Nat := 0x00

/-- HAL_ERROR value of HAL_StatusTypeDef. -/
def HAL_ERROR : Nat := 0x01

/-- HAL_BUSY value of HAL_StatusTypeDef. -/
def HAL_BUSY : Nat := 0x02

/-- HAL_TIMEOUT value of HAL_StatusTypeDef. -/
def HAL_TIMEOUT : Nat := 0x03

/-- ILI9341_EC_OK: driver process was successful (header, value 0). -/
def ILI9341_EC_OK : Nat := 0

/-- ILI9341_EC_STOP: driver process has been stopped (header, value 1). -/
def ILI9341_EC_STOP : Nat := 1

/-- ILI9341_EC_NR: driver process concluded with no response (header, value 2). -/
def ILI9341_EC_NR : Nat := 2

/-- ILI9341_EC_NA: data received or to be received not applicable (header, value 3). -/
def ILI9341_EC_NA : Nat := 3

/-- ILI9341_EC_ERR: driver process has failed (header, value 4). -/
def ILI9341_EC_ERR : Nat := 4

/-! ### Command opcodes and sizes (defines at the top of the .c file) -/

/-- Software Reset command opcode. -/
def ILI9341_SOFTWARE_RESET_COMMAND : Nat := 0x01

/-- Power Control 1 command opcode. -/
def ILI9341_POWER_CONTROL_1_COMMAND : Nat := 0xC0

/-- VCOM Control 1 command opcode. -/
def ILI9341_VCOM_CONTROL_1_COMMAND : Nat := 0xC5

/-- VCOM Control 2 command opcode. -/
def ILI9341_VCOM_CONTROL_2_COMMAND : Nat := 0xC7

/-- Memory Access Control command opcode. -/
def ILI9341_MEMORY_ACCESS_CONTROL_COMMAND : Nat := 0x36

/-- Pixel Format command opcode. -/
def ILI9341_PIXEL_FORMAT_COMMAND : Nat := 0x3A

/-- Display Function Control command opcode. -/
def ILI9341_DISPLAY_FUNCTION_CONTROL_COMMAND : Nat := 0xB6

/-- Sleep Out command opcode. -/
def ILI9341_SLEEP_OUT_COMMAND : Nat := 0x11

/-- Display ON command opcode. -/
def ILI9341_DISPLAY_ON_COMMAND : Nat := 0x29

/-- Size in bytes of a single ILI9341 command. -/
def ILI9341_COMMAND_SIZE : Nat := 1

/-- Size in bytes of a single ILI9341 data byte. -/
def ILI9341_SINGLE_DATA_SIZE : Nat := 1

/-- Size in bytes of the VCOM Control 1 data payload. -/
def ILI9341_VCOM_CONTROL_1_DATA_SIZE : Nat := 2

/-- Size in bytes of the Display Function Control data payload, as declared. -/
def ILI9341_DISPLAY_FUNCTION_CONTROL_DATA_SIZE : Nat := 2

/-! ### Enumerated configuration codes (local enums of the .c file and header) -/

/-- ILI9341_GVDD_4V6: GVDD level code 4.6V. -/
def ILI9341_GVDD_4V6 : Nat := 0x23

/-- ILI9341_VCOMH_4V25: VCOMH voltage code 4.25V. -/
def ILI9341_VCOMH_4V25 : Nat := 0x3E

/-- ILI9341_VCOML_minus_1V5: VCOML voltage code -1.5V. -/
def ILI9341_VCOML_minus_1V5 : Nat := 0x28

/-- ILI9341_VMF_minus_58: VMF offset code -58. -/
def ILI9341_VMF_minus_58 : Nat := 0x86

/-- ILI9341_BPP_16: 16 bits per pixel (header enum value 0). -/
def ILI9341_BPP_16 : Nat := 0

/-- ILI9341_BPP_18: 18 bits per pixel (header enum value 1). -/
def ILI9341_BPP_18 : Nat := 1

/-! ### Pins, pin states, events, driver state -/

/-- The three GPIO control lines of the ILI9341 peripherals record. -/
inductive Pin
  | CS
  | RESET
  | DC
  deriving DecidableEq, Repr

/-- GPIO pin state: low mirrors GPIO_PIN_RESET, high mirrors GPIO_PIN_SET. -/
inductive PinState
  | low
  | high
  deriving DecidableEq, Repr

/-- GPIO_PIN_RESET of the stm32 HAL. -/
def GPIO_PIN_RESET : PinState := PinState.low

/-- GPIO_PIN_SET of the stm32 HAL. -/
def GPIO_PIN_SET : PinState := PinState.high

/-- One observable action of the driver: a GPIO write, a blocking delay in
milliseconds, or a DMA-SPI transmission of a byte sequence. -/
inductive Event
  | writePin (p : Pin) (st : PinState)
  | delay (ms : Nat)
  | spiTx (bytes : List Nat)
  deriving DecidableEq, Repr

/-- Which fill-screen routine the function pointer p_ili9341_fill_screen refers to. -/
inductive FillRoutine
  | fillScreen16bpp
  | fillScreen18bpp
  deriving DecidableEq, Repr

/-- State of the driver module: the trace of events emitted so far, the number
of DMA-SPI transmit calls made so far, and the two mutable globals
ili9341_bpp_type and p_ili9341_fill_screen (the latter is none while the C
static pointer is still null). -/
structure DriverState where
  events : List Event
  txCount : Nat
  ili9341_bpp_type : Nat
  p_ili9341_fill_screen : Option FillRoutine
  deriving DecidableEq, Repr

/-- Driver state at program start: empty trace, zero-initialized statics. -/
def initialDriverState : DriverState :=
  { events := [], txCount := 0, ili9341_bpp_type := 0, p_ili9341_fill_screen := none }

/-- Transport environment: the HAL_StatusTypeDef value that the n-th call of
HAL_SPI_Transmit_DMA (counting from 0) reports. -/
abbrev HAL_Env := Nat → Nat

/-- Append one event to the trace. -/
def emit (e : Event) (s : DriverState) : DriverState :=
  { s with events := s.events ++ [e] }

/-- HAL_GPIO_WritePin on one of the three ILI9341 control lines. -/
def HAL_GPIO_WritePin (p : Pin) (st : PinState) (s : DriverState) : DriverState :=
  emit (Event.writePin p st) s

/-- HAL_Delay: block for ms milliseconds. -/
def HAL_Delay (ms : Nat) (s : DriverState) : DriverState :=
  emit (Event.delay ms) s

/-- enable_cs_pin: drive the CS line low (GPIO_PIN_RESET) to enable SPI. -/
def enable_cs_pin (s : DriverState) : DriverState :=
  HAL_GPIO_WritePin Pin.CS GPIO_PIN_RESET s

/-- disable_cs_pin: drive the CS line high (GPIO_PIN_SET) to disable SPI. -/
def disable_cs_pin (s : DriverState) : DriverState :=
  HAL_GPIO_WritePin Pin.CS GPIO_PIN_SET s

/-- set_dc_pin_to_data_mode: drive the D/C line high. -/
def set_dc_pin_to_data_mode (s : DriverState) : DriverState :=
  HAL_GPIO_WritePin Pin.DC GPIO_PIN_SET s

/-- set_dc_pin_to_command_mode: drive the D/C line low. -/
def set_dc_pin_to_command_mode (s : DriverState) : DriverState :=
  HAL_GPIO_WritePin Pin.DC GPIO_PIN_RESET s

/-! ### Status translator and transmit primitive -/

/-- HAL_ret_handler: translate a HAL_StatusTypeDef value into an
ILI9341_Status value.  The C switch maps HAL_BUSY and HAL_TIMEOUT to
ILI9341_EC_NR, HAL_ERROR to ILI9341_EC_ERR, and casts any other value
through unchanged. -/
def HAL_ret_handler (HAL_status : Nat) : Nat :=
  if HAL_status = HAL_BUSY ∨ HAL_status = HAL_TIMEOUT then ILI9341_EC_NR
  else if HAL_status = HAL_ERROR then ILI9341_EC_ERR
  else HAL_status

/-- ili9341_dma_spi_tx: transmit size bytes out of buffer over DMA-SPI; the
HAL verdict of this (the txCount-th) transmit call comes from the
environment and is translated by HAL_ret_handler. -/
def ili9341_dma_spi_tx (env : HAL_Env) (buffer : List Nat) (size : Nat)
    (s : DriverState) : Nat × DriverState :=
  (HAL_ret_handler (env s.txCount),
   { s with events := s.events ++ [Event.spiTx (buffer.take size)],
            txCount := s.txCount + 1 })

/-! ### Register payload packing (packed bit-field structs, LSB-first layout) -/

/-- ILI9341_MADCTL_def_t packed into a byte: d0_and_d1 at bits 0-1, mh at
bit 2, bgr at bit 3, ml at bit 4, wr_rd_dir at bits 5-7 (bit-fields are
allocated from the least significant bit on this target). -/
def ILI9341_MADCTL_pack (d0_and_d1 mh bgr ml wr_rd_dir : Nat) : Nat :=
  d0_and_d1 % 4 + mh % 2 * 4 + bgr % 2 * 8 + ml % 2 * 16 + wr_rd_dir % 8 * 32

/-- ILI9341_MADCTL_MCU_WRITE_READ_DIRECTION_def_t packed into a byte: mv at
bit 0, mx at bit 1, my at bit 2, reserved at bits 3-7. -/
def ILI9341_MADCTL_MCU_WRITE_READ_DIRECTION_pack (mv mx my reserved : Nat) : Nat :=
  mv % 2 + mx % 2 * 2 + my % 2 * 4 + reserved % 32 * 8

/-- ILI9341_PIXEL_FORMAT_def_t packed into a byte: dbi at bits 0-2, d3 at
bit 3, dpi at bits 4-6, d7 at bit 7. -/
def ILI9341_PIXEL_FORMAT_pack (dbi d3 dpi d7 : Nat) : Nat :=
  dbi % 8 + d3 % 2 * 8 + dpi % 8 * 16 + d7 % 2 * 128

/-! ### Reset procedures -/

/-- ili9341_hardware_reset: drive the RESET line high, wait 1 ms, drive it
low, wait 1 ms, drive it high again, wait 5 ms.  Returns no status. -/
def ili9341_hardware_reset (s : DriverState) : DriverState :=
  let s := HAL_GPIO_WritePin Pin.RESET GPIO_PIN_SET s
  let s := HAL_Delay 1 s
  let s := HAL_GPIO_WritePin Pin.RESET GPIO_PIN_RESET s
  let s := HAL_Delay 1 s
  let s := HAL_GPIO_WritePin Pin.RESET GPIO_PIN_SET s
  HAL_Delay 5 s

/-- ili9341_software_reset: frame the Software Reset command, then wait 5 ms. -/
def ili9341_software_reset (env : HAL_Env) (s : DriverState) : Nat × DriverState :=
  let s := set_dc_pin_to_command_mode s
  let s := enable_cs_pin s
  let r := ili9341_dma_spi_tx env [ILI9341_SOFTWARE_RESET_COMMAND] ILI9341_COMMAND_SIZE s
  let s := disable_cs_pin r.2
  let s := HAL_Delay 5 s
  (r.1, s)

/-! ### Configuration steps -/

/-- ili9341_configure_power_control_1: Power Control 1 command followed by
one data byte holding the GVDD level code. -/
def ili9341_configure_power_control_1 (gvdd_level : Nat) (env : HAL_Env)
    (s : DriverState) : Nat × DriverState :=
  let s := set_dc_pin_to_command_mode s
  let s := enable_cs_pin s
  let r := ili9341_dma_spi_tx env [ILI9341_POWER_CONTROL_1_COMMAND] ILI9341_COMMAND_SIZE s
  if r.1 ≠ ILI9341_EC_OK then
    (r.1, disable_cs_pin r.2)
  else
    let s := set_dc_pin_to_data_mode r.2
    let r2 := ili9341_dma_spi_tx env [gvdd_level % 256] ILI9341_SINGLE_DATA_SIZE s
    (r2.1, disable_cs_pin r2.2)

/-- ili9341_configure_vcom_control_1: VCOM Control 1 command followed by two
data bytes (VCOMH code, VCOML code). -/
def ili9341_configure_vcom_control_1 (vcomh_voltage vcoml_voltage : Nat) (env : HAL_Env)
    (s : DriverState) : Nat × DriverState :=
  let s := set_dc_pin_to_command_mode s
  let s := enable_cs_pin s
  let r := ili9341_dma_spi_tx env [ILI9341_VCOM_CONTROL_1_COMMAND] ILI9341_COMMAND_SIZE s
  if r.1 ≠ ILI9341_EC_OK then
    (r.1, disable_cs_pin r.2)
  else
    let s := set_dc_pin_to_data_mode r.2
    let ili9341_data_value := [vcomh_voltage % 256, vcoml_voltage % 256]
    let r2 := ili9341_dma_spi_tx env ili9341_data_value ILI9341_VCOM_CONTROL_1_DATA_SIZE s
    (r2.1, disable_cs_pin r2.2)

/-- ili9341_configure_vcom_control_2: VCOM Control 2 command followed by one
data byte holding the VMF offset code. -/
def ili9341_configure_vcom_control_2 (vmf_offset : Nat) (env : HAL_Env)
    (s : DriverState) : Nat × DriverState :=
  let s := set_dc_pin_to_command_mode s
  let s := enable_cs_pin s
  let r := ili9341_dma_spi_tx env [ILI9341_VCOM_CONTROL_2_COMMAND] ILI9341_COMMAND_SIZE s
  if r.1 ≠ ILI9341_EC_OK then
    (r.1, disable_cs_pin r.2)
  else
    let s := set_dc_pin_to_data_mode r.2
    let r2 := ili9341_dma_spi_tx env [vmf_offset % 256] ILI9341_SINGLE_DATA_SIZE s
    (r2.1, disable_cs_pin r2.2)

/-- Memory Access Control data byte built by the step: mh = 0, bgr = 1,
ml = 0, and wr_rd_dir holding the packed sub-structure with mv = 0, mx = 1,
my = 0 (the reserved fields stay zero-initialized). -/
def ili9341_madctl_data_value : Nat :=
  ILI9341_MADCTL_pack 0 0 1 0 (ILI9341_MADCTL_MCU_WRITE_READ_DIRECTION_pack 0 1 0 0)

/-- ili9341_configure_memory_access_control: Memory Access Control command
followed by one data byte holding the packed MADCTL value. -/
def ili9341_configure_memory_access_control (env : HAL_Env)
    (s : DriverState) : Nat × DriverState :=
  let s := set_dc_pin_to_command_mode s
  let s := enable_cs_pin s
  let r := ili9341_dma_spi_tx env [ILI9341_MEMORY_ACCESS_CONTROL_COMMAND] ILI9341_COMMAND_SIZE s
  if r.1 ≠ ILI9341_EC_OK then
    (r.1, disable_cs_pin r.2)
  else
    let s := set_dc_pin_to_data_mode r.2
    let r2 := ili9341_dma_spi_tx env [ili9341_madctl_data_value] ILI9341_SINGLE_DATA_SIZE s
    (r2.1, disable_cs_pin r2.2)

/-- Pixel Format data byte built by the step: dbi = 0x05 and dpi = 0x05,
with d3 and d7 left zero-initialized. -/
def ili9341_pixel_format_data_value : Nat :=
  ILI9341_PIXEL_FORMAT_pack 0x05 0 0x05 0

/-- ili9341_configure_pixel_format: first commits p_ili9341_fill_screen to
the 16 bpp routine and ili9341_bpp_type to ILI9341_BPP_16, then frames the
Pixel Format command followed by one data byte holding the packed value. -/
def ili9341_configure_pixel_format (env : HAL_Env)
    (s : DriverState) : Nat × DriverState :=
  let s := { s with p_ili9341_fill_screen := some FillRoutine.fillScreen16bpp,
                    ili9341_bpp_type := ILI9341_BPP_16 }
  let s := set_dc_pin_to_command_mode s
  let s := enable_cs_pin s
  let r := ili9341_dma_spi_tx env [ILI9341_PIXEL_FORMAT_COMMAND] ILI9341_COMMAND_SIZE s
  if r.1 ≠ ILI9341_EC_OK then
    (r.1, disable_cs_pin r.2)
  else
    let s := set_dc_pin_to_data_mode r.2
    let r2 := ili9341_dma_spi_tx env [ili9341_pixel_format_data_value] ILI9341_SINGLE_DATA_SIZE s
    (r2.1, disable_cs_pin r2.2)

/-- The index/value stores performed by ili9341_configure_display_function_control
on its local payload buffer, in program order: the C code assigns
ili9341_data_value[0] = 0x08, ili9341_data_value[1] = 0x82 and
ili9341_data_value[2] = 0x27 although the buffer is declared with
ILI9341_DISPLAY_FUNCTION_CONTROL_DATA_SIZE = 2 elements. -/
def ili9341_dfc_stores : List (Nat × Nat) := [(0, 0x08), (1, 0x82), (2, 0x27)]

/-- Contents of the declared 2-element Display Function Control buffer after
the stores that fall within its bounds. -/
def ili9341_dfc_buffer : List Nat :=
  (List.range ILI9341_DISPLAY_FUNCTION_CONTROL_DATA_SIZE).map (fun i =>
    (((ili9341_dfc_stores.filter (fun p => p.1 = i)).getLast?).map Prod.snd).getD 0)

/-- ili9341_configure_display_function_control: Display Function Control
command followed by the buffer contents, transmitted with size
ILI9341_DISPLAY_FUNCTION_CONTROL_DATA_SIZE. -/
def ili9341_configure_display_function_control (env : HAL_Env)
    (s : DriverState) : Nat × DriverState :=
  let s := set_dc_pin_to_command_mode s
  let s := enable_cs_pin s
  let r := ili9341_dma_spi_tx env [ILI9341_DISPLAY_FUNCTION_CONTROL_COMMAND] ILI9341_COMMAND_SIZE s
  if r.1 ≠ ILI9341_EC_OK then
    (r.1, disable_cs_pin r.2)
  else
    let s := set_dc_pin_to_data_mode r.2
    let r2 := ili9341_dma_spi_tx env ili9341_dfc_buffer
                ILI9341_DISPLAY_FUNCTION_CONTROL_DATA_SIZE s
    (r2.1, disable_cs_pin r2.2)

/-- ili9341_exit_sleep_mode: frame the Sleep Out command, then wait 5 ms. -/
def ili9341_exit_sleep_mode (env : HAL_Env) (s : DriverState) : Nat × DriverState :=
  let s := set_dc_pin_to_command_mode s
  let s := enable_cs_pin s
  let r := ili9341_dma_spi_tx env [ILI9341_SLEEP_OUT_COMMAND] ILI9341_COMMAND_SIZE s
  let s := disable_cs_pin r.2
  let s := HAL_Delay 5 s
  (r.1, s)

/-- ili9341_turn_display_on: frame the Display ON command. -/
def ili9341_turn_display_on (env : HAL_Env) (s : DriverState) : Nat × DriverState :=
  let s := set_dc_pin_to_command_mode s
  let s := enable_cs_pin s
  let r := ili9341_dma_spi_tx env [ILI9341_DISPLAY_ON_COMMAND] ILI9341_COMMAND_SIZE s
  let s := disable_cs_pin r.2
  (r.1, s)

/-! ### Initialization sequencer -/

/-- init_ili9341_module: disable CS, hardware reset, then the nine
command-sending steps in the fixed order, stopping at the first non-OK
verdict and returning it unchanged. -/
def init_ili9341_module (env : HAL_Env) : Nat × DriverState :=
  let s := disable_cs_pin initialDriverState
  let s := ili9341_hardware_reset s
  let r1 := ili9341_software_reset env s
  if r1.1 ≠ ILI9341_EC_OK then r1 else
  let r2 := ili9341_configure_power_control_1 ILI9341_GVDD_4V6 env r1.2
  if r2.1 ≠ ILI9341_EC_OK then r2 else
  let r3 := ili9341_configure_vcom_control_1 ILI9341_VCOMH_4V25 ILI9341_VCOML_minus_1V5 env r2.2
  if r3.1 ≠ ILI9341_EC_OK then r3 else
  let r4 := ili9341_configure_vcom_control_2 ILI9341_VMF_minus_58 env r3.2
  if r4.1 ≠ ILI9341_EC_OK then r4 else
  let r5 := ili9341_configure_memory_access_control env r4.2
  if r5.1 ≠ ILI9341_EC_OK then r5 else
  let r6 := ili9341_configure_pixel_format env r5.2
  if r6.1 ≠ ILI9341_EC_OK then r6 else
  let r7 := ili9341_configure_display_function_control env r6.2
  if r7.1 ≠ ILI9341_EC_OK then r7 else
  let r8 := ili9341_exit_sleep_mode env r7.2
  if r8.1 ≠ ILI9341_EC_OK then r8 else
  let r9 := ili9341_turn_display_on env r8.2
  if r9.1 ≠ ILI9341_EC_OK then r9 else
  (ILI9341_EC_OK, r9.2)

/-! ### Trace observations -/

/-- Folding step for commandsSent: track whether the D/C line is in data
mode (true) and collect the first byte of every transmission made in
command mode. -/
def commandsStep (acc : List Nat × Bool) (e : Event) : List Nat × Bool :=
  match e with
  | Event.writePin Pin.DC st => (acc.1, st = PinState.high)
  | Event.spiTx bs => (if acc.2 then acc.1 else acc.1 ++ [bs.headD 0], acc.2)
  | _ => acc

/-- Command opcodes transmitted in a trace, in order: the leading byte of
every SPI transmission that happens while the D/C line is in command mode. -/
def commandsSent (evs : List Event) : List Nat :=
  (evs.foldl commandsStep ([], true)).1

/-- Last level written on the CS line in a trace, if any. -/
def lastCsLevel (evs : List Event) : Option PinState :=
  evs.foldl (fun a e =>
    match e with
    | Event.writePin Pin.CS st => some st
    | _ => a) none

/-- Payloads of all SPI transmissions in a trace, in order. -/
def txPayloads (evs : List Event) : List (List Nat) :=
  evs.foldl (fun a e =>
    match e with
    | Event.spiTx bs => a ++ [bs]
    | _ => a) []

/-- Transport environment that reports success on every transmit. -/
def allOkEnv : HAL_Env := fun _ => HAL_OK

/-- Transport environment that reports a hard error exactly on transmit
index 5, which is the VCOM Control 2 command transmit, and success
everywhere else. -/
def vcom2ErrorEnv : HAL_Env := fun i => if i = 5 then HAL_ERROR else HAL_OK


/-! ### Characterization lemmas: trace and verdict of each procedure -/

/-- Simp facts used throughout: concrete values of the three packed data bytes. -/
lemma ili9341_madctl_data_value_eq : ili9341_madctl_data_value = 0x48 := by decide

/-- Pixel Format data byte evaluates to 0x55. -/
lemma ili9341_pixel_format_data_value_eq : ili9341_pixel_format_data_value = 0x55 := by decide

/-- The Display Function Control buffer holds the two in-bounds bytes. -/
lemma ili9341_dfc_buffer_eq : ili9341_dfc_buffer = [0x08, 0x82] := by decide

/-- Translating HAL_OK yields ILI9341_EC_OK. -/
lemma HAL_ret_handler_HAL_OK : HAL_ret_handler HAL_OK = ILI9341_EC_OK := by decide

/-- Run of the hardware reset procedure. -/
lemma hardware_reset_run (s : DriverState) :
    ili9341_hardware_reset s =
      { s with
          events := s.events ++
            [Event.writePin Pin.RESET PinState.high, Event.delay 1,
             Event.writePin Pin.RESET PinState.low, Event.delay 1,
             Event.writePin Pin.RESET PinState.high, Event.delay 5] } := by
  simp [ili9341_hardware_reset, HAL_GPIO_WritePin, HAL_Delay, emit,
        GPIO_PIN_SET, GPIO_PIN_RESET]

/-- Run of the software reset step. -/
lemma software_reset_run (env : HAL_Env) (s : DriverState) :
    ili9341_software_reset env s =
      (HAL_ret_handler (env s.txCount),
       { s with
           events := s.events ++
             [Event.writePin Pin.DC PinState.low, Event.writePin Pin.CS PinState.low,
              Event.spiTx [ILI9341_SOFTWARE_RESET_COMMAND], Event.writePin Pin.CS PinState.high,
              Event.delay 5],
           txCount := s.txCount + 1 }) := by
  simp [ili9341_software_reset, set_dc_pin_to_command_mode, enable_cs_pin, disable_cs_pin,
        HAL_GPIO_WritePin, HAL_Delay, emit, ili9341_dma_spi_tx, ILI9341_COMMAND_SIZE,
        GPIO_PIN_SET, GPIO_PIN_RESET, List.take]

/-- Run of Power Control 1 when the command transmit verdict is OK. -/
lemma power_control_1_run_ok (g : Nat) (env : HAL_Env) (s : DriverState)
    (h : HAL_ret_handler (env s.txCount) = ILI9341_EC_OK) :
    ili9341_configure_power_control_1 g env s =
      (HAL_ret_handler (env (s.txCount + 1)),
       { s with
           events := s.events ++
             [Event.writePin Pin.DC PinState.low, Event.writePin Pin.CS PinState.low,
              Event.spiTx [ILI9341_POWER_CONTROL_1_COMMAND], Event.writePin Pin.DC PinState.high,
              Event.spiTx [g % 256], Event.writePin Pin.CS PinState.high],
           txCount := s.txCount + 2 }) := by
  simp [ili9341_configure_power_control_1, set_dc_pin_to_command_mode, enable_cs_pin,
        disable_cs_pin, set_dc_pin_to_data_mode, HAL_GPIO_WritePin, emit,
        ili9341_dma_spi_tx, ILI9341_COMMAND_SIZE, ILI9341_SINGLE_DATA_SIZE,
        GPIO_PIN_SET, GPIO_PIN_RESET, List.take, h]

/-- Run of Power Control 1 when the command transmit verdict is non-OK. -/
lemma power_control_1_run_fail (g : Nat) (env : HAL_Env) (s : DriverState)
    (h : ¬ HAL_ret_handler (env s.txCount) = ILI9341_EC_OK) :
    ili9341_configure_power_control_1 g env s =
      (HAL_ret_handler (env s.txCount),
       { s with
           events := s.events ++
             [Event.writePin Pin.DC PinState.low, Event.writePin Pin.CS PinState.low,
              Event.spiTx [ILI9341_POWER_CONTROL_1_COMMAND], Event.writePin Pin.CS PinState.high],
           txCount := s.txCount + 1 }) := by
  simp [ili9341_configure_power_control_1, set_dc_pin_to_command_mode, enable_cs_pin,
        disable_cs_pin, HAL_GPIO_WritePin, emit, ili9341_dma_spi_tx, ILI9341_COMMAND_SIZE,
        GPIO_PIN_SET, GPIO_PIN_RESET, List.take, h]

/-- Run of VCOM Control 1 when the command transmit verdict is OK. -/
lemma vcom_control_1_run_ok (vh vl : Nat) (env : HAL_Env) (s : DriverState)
    (h : HAL_ret_handler (env s.txCount) = ILI9341_EC_OK) :
    ili9341_configure_vcom_control_1 vh vl env s =
      (HAL_ret_handler (env (s.txCount + 1)),
       { s with
           events := s.events ++
             [Event.writePin Pin.DC PinState.low, Event.writePin Pin.CS PinState.low,
              Event.spiTx [ILI9341_VCOM_CONTROL_1_COMMAND], Event.writePin Pin.DC PinState.high,
              Event.spiTx [vh % 256, vl % 256], Event.writePin Pin.CS PinState.high],
           txCount := s.txCount + 2 }) := by
  simp [ili9341_configure_vcom_control_1, set_dc_pin_to_command_mode, enable_cs_pin,
        disable_cs_pin, set_dc_pin_to_data_mode, HAL_GPIO_WritePin, emit,
        ili9341_dma_spi_tx, ILI9341_COMMAND_SIZE, ILI9341_VCOM_CONTROL_1_DATA_SIZE,
        GPIO_PIN_SET, GPIO_PIN_RESET, List.take, h]

/-- Run of VCOM Control 1 when the command transmit verdict is non-OK. -/
lemma vcom_control_1_run_fail (vh vl : Nat) (env : HAL_Env) (s : DriverState)
    (h : ¬ HAL_ret_handler (env s.txCount) = ILI9341_EC_OK) :
    ili9341_configure_vcom_control_1 vh vl env s =
      (HAL_ret_handler (env s.txCount),
       { s with
           events := s.events ++
             [Event.writePin Pin.DC PinState.low, Event.writePin Pin.CS PinState.low,
              Event.spiTx [ILI9341_VCOM_CONTROL_1_COMMAND], Event.writePin Pin.CS PinState.high],
           txCount := s.txCount + 1 }) := by
  simp [ili9341_configure_vcom_control_1, set_dc_pin_to_command_mode, enable_cs_pin,
        disable_cs_pin, HAL_GPIO_WritePin, emit, ili9341_dma_spi_tx, ILI9341_COMMAND_SIZE,
        GPIO_PIN_SET, GPIO_PIN_RESET, List.take, h]

/-- Run of VCOM Control 2 when the command transmit verdict is OK. -/
lemma vcom_control_2_run_ok (vmf : Nat) (env : HAL_Env) (s : DriverState)
    (h : HAL_ret_handler (env s.txCount) = ILI9341_EC_OK) :
    ili9341_configure_vcom_control_2 vmf env s =
      (HAL_ret_handler (env (s.txCount + 1)),
       { s with
           events := s.events ++
             [Event.writePin Pin.DC PinState.low, Event.writePin Pin.CS PinState.low,
              Event.spiTx [ILI9341_VCOM_CONTROL_2_COMMAND], Event.writePin Pin.DC PinState.high,
              Event.spiTx [vmf % 256], Event.writePin Pin.CS PinState.high],
           txCount := s.txCount + 2 }) := by
  simp [ili9341_configure_vcom_control_2, set_dc_pin_to_command_mode, enable_cs_pin,
        disable_cs_pin, set_dc_pin_to_data_mode, HAL_GPIO_WritePin, emit,
        ili9341_dma_spi_tx, ILI9341_COMMAND_SIZE, ILI9341_SINGLE_DATA_SIZE,
        GPIO_PIN_SET, GPIO_PIN_RESET, List.take, h]

/-- Run of VCOM Control 2 when the command transmit verdict is non-OK. -/
lemma vcom_control_2_run_fail (vmf : Nat) (env : HAL_Env) (s : DriverState)
    (h : ¬ HAL_ret_handler (env s.txCount) = ILI9341_EC_OK) :
    ili9341_configure_vcom_control_2 vmf env s =
      (HAL_ret_handler (env s.txCount),
       { s with
           events := s.events ++
             [Event.writePin Pin.DC PinState.low, Event.writePin Pin.CS PinState.low,
              Event.spiTx [ILI9341_VCOM_CONTROL_2_COMMAND], Event.writePin Pin.CS PinState.high],
           txCount := s.txCount + 1 }) := by
  simp [ili9341_configure_vcom_control_2, set_dc_pin_to_command_mode, enable_cs_pin,
        disable_cs_pin, HAL_GPIO_WritePin, emit, ili9341_dma_spi_tx, ILI9341_COMMAND_SIZE,
        GPIO_PIN_SET, GPIO_PIN_RESET, List.take, h]

/-- Run of Memory Access Control when the command transmit verdict is OK. -/
lemma memory_access_control_run_ok (env : HAL_Env) (s : DriverState)
    (h : HAL_ret_handler (env s.txCount) = ILI9341_EC_OK) :
    ili9341_configure_memory_access_control env s =
      (HAL_ret_handler (env (s.txCount + 1)),
       { s with
           events := s.events ++
             [Event.writePin Pin.DC PinState.low, Event.writePin Pin.CS PinState.low,
              Event.spiTx [ILI9341_MEMORY_ACCESS_CONTROL_COMMAND], Event.writePin Pin.DC PinState.high,
              Event.spiTx [0x48], Event.writePin Pin.CS PinState.high],
           txCount := s.txCount + 2 }) := by
  simp [ili9341_configure_memory_access_control, set_dc_pin_to_command_mode, enable_cs_pin,
        disable_cs_pin, set_dc_pin_to_data_mode, HAL_GPIO_WritePin, emit,
        ili9341_dma_spi_tx, ILI9341_COMMAND_SIZE, ILI9341_SINGLE_DATA_SIZE,
        ili9341_madctl_data_value_eq,
        GPIO_PIN_SET, GPIO_PIN_RESET, List.take, h]

/-- Run of Memory Access Control when the command transmit verdict is non-OK. -/
lemma memory_access_control_run_fail (env : HAL_Env) (s : DriverState)
    (h : ¬ HAL_ret_handler (env s.txCount) = ILI9341_EC_OK) :
    ili9341_configure_memory_access_control env s =
      (HAL_ret_handler (env s.txCount),
       { s with
           events := s.events ++
             [Event.writePin Pin.DC PinState.low, Event.writePin Pin.CS PinState.low,
              Event.spiTx [ILI9341_MEMORY_ACCESS_CONTROL_COMMAND], Event.writePin Pin.CS PinState.high],
           txCount := s.txCount + 1 }) := by
  simp [ili9341_configure_memory_access_control, set_dc_pin_to_command_mode, enable_cs_pin,
        disable_cs_pin, HAL_GPIO_WritePin, emit, ili9341_dma_spi_tx, ILI9341_COMMAND_SIZE,
        GPIO_PIN_SET, GPIO_PIN_RESET, List.take, h]

/-- Run of the Pixel Format step when the command transmit verdict is OK. -/
lemma pixel_format_run_ok (env : HAL_Env) (s : DriverState)
    (h : HAL_ret_handler (env s.txCount) = ILI9341_EC_OK) :
    ili9341_configure_pixel_format env s =
      (HAL_ret_handler (env (s.txCount + 1)),
       { s with
           events := s.events ++
             [Event.writePin Pin.DC PinState.low, Event.writePin Pin.CS PinState.low,
              Event.spiTx [ILI9341_PIXEL_FORMAT_COMMAND], Event.writePin Pin.DC PinState.high,
              Event.spiTx [0x55], Event.writePin Pin.CS PinState.high],
           txCount := s.txCount + 2,
           ili9341_bpp_type := ILI9341_BPP_16,
           p_ili9341_fill_screen := some FillRoutine.fillScreen16bpp }) := by
  simp [ili9341_configure_pixel_format, set_dc_pin_to_command_mode, enable_cs_pin,
        disable_cs_pin, set_dc_pin_to_data_mode, HAL_GPIO_WritePin, emit,
        ili9341_dma_spi_tx, ILI9341_COMMAND_SIZE, ILI9341_SINGLE_DATA_SIZE,
        ili9341_pixel_format_data_value_eq,
        GPIO_PIN_SET, GPIO_PIN_RESET, List.take, h]

/-- Run of the Pixel Format step when the command transmit verdict is non-OK:
the mode commit still happens. -/
lemma pixel_format_run_fail (env : HAL_Env) (s : DriverState)
    (h : ¬ HAL_ret_handler (env s.txCount) = ILI9341_EC_OK) :
    ili9341_configure_pixel_format env s =
      (HAL_ret_handler (env s.txCount),
       { s with
           events := s.events ++
             [Event.writePin Pin.DC PinState.low, Event.writePin Pin.CS PinState.low,
              Event.spiTx [ILI9341_PIXEL_FORMAT_COMMAND], Event.writePin Pin.CS PinState.high],
           txCount := s.txCount + 1,
           ili9341_bpp_type := ILI9341_BPP_16,
           p_ili9341_fill_screen := some FillRoutine.fillScreen16bpp }) := by
  simp [ili9341_configure_pixel_format, set_dc_pin_to_command_mode, enable_cs_pin,
        disable_cs_pin, HAL_GPIO_WritePin, emit, ili9341_dma_spi_tx, ILI9341_COMMAND_SIZE,
        GPIO_PIN_SET, GPIO_PIN_RESET, List.take, h]

/-- Run of Display Function Control when the command transmit verdict is OK. -/
lemma display_function_control_run_ok (env : HAL_Env) (s : DriverState)
    (h : HAL_ret_handler (env s.txCount) = ILI9341_EC_OK) :
    ili9341_configure_display_function_control env s =
      (HAL_ret_handler (env (s.txCount + 1)),
       { s with
           events := s.events ++
             [Event.writePin Pin.DC PinState.low, Event.writePin Pin.CS PinState.low,
              Event.spiTx [ILI9341_DISPLAY_FUNCTION_CONTROL_COMMAND], Event.writePin Pin.DC PinState.high,
              Event.spiTx [0x08, 0x82], Event.writePin Pin.CS PinState.high],
           txCount := s.txCount + 2 }) := by
  simp [ili9341_configure_display_function_control, set_dc_pin_to_command_mode, enable_cs_pin,
        disable_cs_pin, set_dc_pin_to_data_mode, HAL_GPIO_WritePin, emit,
        ili9341_dma_spi_tx, ILI9341_COMMAND_SIZE, ILI9341_DISPLAY_FUNCTION_CONTROL_DATA_SIZE,
        ili9341_dfc_buffer_eq,
        GPIO_PIN_SET, GPIO_PIN_RESET, List.take, h]
  decide

/-- Run of Display Function Control when the command transmit verdict is non-OK. -/
lemma display_function_control_run_fail (env : HAL_Env) (s : DriverState)
    (h : ¬ HAL_ret_handler (env s.txCount) = ILI9341_EC_OK) :
    ili9341_configure_display_function_control env s =
      (HAL_ret_handler (env s.txCount),
       { s with
           events := s.events ++
             [Event.writePin Pin.DC PinState.low, Event.writePin Pin.CS PinState.low,
              Event.spiTx [ILI9341_DISPLAY_FUNCTION_CONTROL_COMMAND], Event.writePin Pin.CS PinState.high],
           txCount := s.txCount + 1 }) := by
  simp [ili9341_configure_display_function_control, set_dc_pin_to_command_mode, enable_cs_pin,
        disable_cs_pin, HAL_GPIO_WritePin, emit, ili9341_dma_spi_tx, ILI9341_COMMAND_SIZE,
        GPIO_PIN_SET, GPIO_PIN_RESET, List.take, h]

/-- Run of the Sleep Out step. -/
lemma exit_sleep_mode_run (env : HAL_Env) (s : DriverState) :
    ili9341_exit_sleep_mode env s =
      (HAL_ret_handler (env s.txCount),
       { s with
           events := s.events ++
             [Event.writePin Pin.DC PinState.low, Event.writePin Pin.CS PinState.low,
              Event.spiTx [ILI9341_SLEEP_OUT_COMMAND], Event.writePin Pin.CS PinState.high,
              Event.delay 5],
           txCount := s.txCount + 1 }) := by
  simp [ili9341_exit_sleep_mode, set_dc_pin_to_command_mode, enable_cs_pin, disable_cs_pin,
        HAL_GPIO_WritePin, HAL_Delay, emit, ili9341_dma_spi_tx, ILI9341_COMMAND_SIZE,
        GPIO_PIN_SET, GPIO_PIN_RESET, List.take]

/-- Run of the Display ON step. -/
lemma turn_display_on_run (env : HAL_Env) (s : DriverState) :
    ili9341_turn_display_on env s =
      (HAL_ret_handler (env s.txCount),
       { s with
           events := s.events ++
             [Event.writePin Pin.DC PinState.low, Event.writePin Pin.CS PinState.low,
              Event.spiTx [ILI9341_DISPLAY_ON_COMMAND], Event.writePin Pin.CS PinState.high],
           txCount := s.txCount + 1 }) := by
  simp [ili9341_turn_display_on, set_dc_pin_to_command_mode, enable_cs_pin, disable_cs_pin,
        HAL_GPIO_WritePin, emit, ili9341_dma_spi_tx, ILI9341_COMMAND_SIZE,
        GPIO_PIN_SET, GPIO_PIN_RESET, List.take]

/-- If every transmit call gets the same verdict as under the all-OK
environment up to translation, the whole initialization run is the same as
under the all-OK environment. -/
lemma init_env_irrelevant_allOK (env : HAL_Env)
    (h : ∀ i, HAL_ret_handler (env i) = ILI9341_EC_OK) :
    init_ili9341_module env = init_ili9341_module allOkEnv := by
  simp [init_ili9341_module, initialDriverState, disable_cs_pin, HAL_GPIO_WritePin, emit,
        hardware_reset_run, software_reset_run, power_control_1_run_ok,
        vcom_control_1_run_ok, vcom_control_2_run_ok, memory_access_control_run_ok,
        pixel_format_run_ok, display_function_control_run_ok, exit_sleep_mode_run,
        turn_display_on_run, h, allOkEnv, HAL_ret_handler_HAL_OK, GPIO_PIN_SET]


/-! ### Claim theorems -/

/-- C2: for every transport behaviour, the initialization sequencer returns
the verdict of the first transmit whose translated verdict is non-OK,
unchanged, and performs no transmit after it (the final transmit count is
k + 1 when the k-th transmit is the first to fail); in particular, under
the environment that reports a hard error exactly on the VCOM Control 2
command transmit, initialization returns ILI9341_EC_ERR, stops after that
transmit, and the command opcodes sent are exactly those up to and
including VCOM Control 2 — neither the memory access control command nor
any later command is transmitted. -/
theorem init_first_failure_C2 :
    (∀ (env : HAL_Env) (k : Nat), k < 15 →
      (∀ j, j < k → HAL_ret_handler (env j) = ILI9341_EC_OK) →
      ¬ HAL_ret_handler (env k) = ILI9341_EC_OK →
      (init_ili9341_module env).1 = HAL_ret_handler (env k) ∧
      (init_ili9341_module env).2.txCount = k + 1) ∧
    ((init_ili9341_module vcom2ErrorEnv).1 = ILI9341_EC_ERR ∧
     (init_ili9341_module vcom2ErrorEnv).2.txCount = 6 ∧
     commandsSent (init_ili9341_module vcom2ErrorEnv).2.events =
       [ILI9341_SOFTWARE_RESET_COMMAND, ILI9341_POWER_CONTROL_1_COMMAND,
        ILI9341_VCOM_CONTROL_1_COMMAND, ILI9341_VCOM_CONTROL_2_COMMAND]) := by
  constructor
  · intro env k hk hpre hfail
    by_cases h0 : HAL_ret_handler (env 0) = ILI9341_EC_OK
    case neg =>
      have hkm : k = 0 := by
        rcases Nat.lt_trichotomy k 0 with hlt | heq | hgt
        · omega
        · exact heq
        · exact absurd (hpre 0 hgt) h0
      subst hkm
      simp [init_ili9341_module, initialDriverState, disable_cs_pin, HAL_GPIO_WritePin, emit,
            hardware_reset_run, software_reset_run,
            power_control_1_run_ok, power_control_1_run_fail,
            vcom_control_1_run_ok, vcom_control_1_run_fail,
            vcom_control_2_run_ok, vcom_control_2_run_fail,
            memory_access_control_run_ok, memory_access_control_run_fail,
            pixel_format_run_ok, pixel_format_run_fail,
            display_function_control_run_ok, display_function_control_run_fail,
            exit_sleep_mode_run, turn_display_on_run, GPIO_PIN_SET,
            h0]
    by_cases h1 : HAL_ret_handler (env 1) = ILI9341_EC_OK
    case neg =>
      have hkm : k = 1 := by
        rcases Nat.lt_trichotomy k 1 with hlt | heq | hgt
        · exact absurd (by interval_cases k <;> assumption) hfail
        · exact heq
        · exact absurd (hpre 1 hgt) h1
      subst hkm
      simp [init_ili9341_module, initialDriverState, disable_cs_pin, HAL_GPIO_WritePin, emit,
            hardware_reset_run, software_reset_run,
            power_control_1_run_ok, power_control_1_run_fail,
            vcom_control_1_run_ok, vcom_control_1_run_fail,
            vcom_control_2_run_ok, vcom_control_2_run_fail,
            memory_access_control_run_ok, memory_access_control_run_fail,
            pixel_format_run_ok, pixel_format_run_fail,
            display_function_control_run_ok, display_function_control_run_fail,
            exit_sleep_mode_run, turn_display_on_run, GPIO_PIN_SET,
            h0, h1]
    by_cases h2 : HAL_ret_handler (env 2) = ILI9341_EC_OK
    case neg =>
      have hkm : k = 2 := by
        rcases Nat.lt_trichotomy k 2 with hlt | heq | hgt
        · exact absurd (by interval_cases k <;> assumption) hfail
        · exact heq
        · exact absurd (hpre 2 hgt) h2
      subst hkm
      simp [init_ili9341_module, initialDriverState, disable_cs_pin, HAL_GPIO_WritePin, emit,
            hardware_reset_run, software_reset_run,
            power_control_1_run_ok, power_control_1_run_fail,
            vcom_control_1_run_ok, vcom_control_1_run_fail,
            vcom_control_2_run_ok, vcom_control_2_run_fail,
            memory_access_control_run_ok, memory_access_control_run_fail,
            pixel_format_run_ok, pixel_format_run_fail,
            display_function_control_run_ok, display_function_control_run_fail,
            exit_sleep_mode_run, turn_display_on_run, GPIO_PIN_SET,
            h0, h1, h2]
    by_cases h3 : HAL_ret_handler (env 3) = ILI9341_EC_OK
    case neg =>
      have hkm : k = 3 := by
        rcases Nat.lt_trichotomy k 3 with hlt | heq | hgt
        · exact absurd (by interval_cases k <;> assumption) hfail
        · exact heq
        · exact absurd (hpre 3 hgt) h3
      subst hkm
      simp [init_ili9341_module, initialDriverState, disable_cs_pin, HAL_GPIO_WritePin, emit,
            hardware_reset_run, software_reset_run,
            power_control_1_run_ok, power_control_1_run_fail,
            vcom_control_1_run_ok, vcom_control_1_run_fail,
            vcom_control_2_run_ok, vcom_control_2_run_fail,
            memory_access_control_run_ok, memory_access_control_run_fail,
            pixel_format_run_ok, pixel_format_run_fail,
            display_function_control_run_ok, display_function_control_run_fail,
            exit_sleep_mode_run, turn_display_on_run, GPIO_PIN_SET,
            h0, h1, h2, h3]
    by_cases h4 : HAL_ret_handler (env 4) = ILI9341_EC_OK
    case neg =>
      have hkm : k = 4 := by
        rcases Nat.lt_trichotomy k 4 with hlt | heq | hgt
        · exact absurd (by interval_cases k <;> assumption) hfail
        · exact heq
        · exact absurd (hpre 4 hgt) h4
      subst hkm
      simp [init_ili9341_module, initialDriverState, disable_cs_pin, HAL_GPIO_WritePin, emit,
            hardware_reset_run, software_reset_run,
            power_control_1_run_ok, power_control_1_run_fail,
            vcom_control_1_run_ok, vcom_control_1_run_fail,
            vcom_control_2_run_ok, vcom_control_2_run_fail,
            memory_access_control_run_ok, memory_access_control_run_fail,
            pixel_format_run_ok, pixel_format_run_fail,
            display_function_control_run_ok, display_function_control_run_fail,
            exit_sleep_mode_run, turn_display_on_run, GPIO_PIN_SET,
            h0, h1, h2, h3, h4]
    by_cases h5 : HAL_ret_handler (env 5) = ILI9341_EC_OK
    case neg =>
      have hkm : k = 5 := by
        rcases Nat.lt_trichotomy k 5 with hlt | heq | hgt
        · exact absurd (by interval_cases k <;> assumption) hfail
        · exact heq
        · exact absurd (hpre 5 hgt) h5
      subst hkm
      simp [init_ili9341_module, initialDriverState, disable_cs_pin, HAL_GPIO_WritePin, emit,
            hardware_reset_run, software_reset_run,
            power_control_1_run_ok, power_control_1_run_fail,
            vcom_control_1_run_ok, vcom_control_1_run_fail,
            vcom_control_2_run_ok, vcom_control_2_run_fail,
            memory_access_control_run_ok, memory_access_control_run_fail,
            pixel_format_run_ok, pixel_format_run_fail,
            display_function_control_run_ok, display_function_control_run_fail,
            exit_sleep_mode_run, turn_display_on_run, GPIO_PIN_SET,
            h0, h1, h2, h3, h4, h5]
    by_cases h6 : HAL_ret_handler (env 6) = ILI9341_EC_OK
    case neg =>
      have hkm : k = 6 := by
        rcases Nat.lt_trichotomy k 6 with hlt | heq | hgt
        · exact absurd (by interval_cases k <;> assumption) hfail
        · exact heq
        · exact absurd (hpre 6 hgt) h6
      subst hkm
      simp [init_ili9341_module, initialDriverState, disable_cs_pin, HAL_GPIO_WritePin, emit,
            hardware_reset_run, software_reset_run,
            power_control_1_run_ok, power_control_1_run_fail,
            vcom_control_1_run_ok, vcom_control_1_run_fail,
            vcom_control_2_run_ok, vcom_control_2_run_fail,
            memory_access_control_run_ok, memory_access_control_run_fail,
            pixel_format_run_ok, pixel_format_run_fail,
            display_function_control_run_ok, display_function_control_run_fail,
            exit_sleep_mode_run, turn_display_on_run, GPIO_PIN_SET,
            h0, h1, h2, h3, h4, h5, h6]
    by_cases h7 : HAL_ret_handler (env 7) = ILI9341_EC_OK
    case neg =>
      have hkm : k = 7 := by
        rcases Nat.lt_trichotomy k 7 with hlt | heq | hgt
        · exact absurd (by interval_cases k <;> assumption) hfail
        · exact heq
        · exact absurd (hpre 7 hgt) h7
      subst hkm
      simp [init_ili9341_module, initialDriverState, disable_cs_pin, HAL_GPIO_WritePin, emit,
            hardware_reset_run, software_reset_run,
            power_control_1_run_ok, power_control_1_run_fail,
            vcom_control_1_run_ok, vcom_control_1_run_fail,
            vcom_control_2_run_ok, vcom_control_2_run_fail,
            memory_access_control_run_ok, memory_access_control_run_fail,
            pixel_format_run_ok, pixel_format_run_fail,
            display_function_control_run_ok, display_function_control_run_fail,
            exit_sleep_mode_run, turn_display_on_run, GPIO_PIN_SET,
            h0, h1, h2, h3, h4, h5, h6, h7]
    by_cases h8 : HAL_ret_handler (env 8) = ILI9341_EC_OK
    case neg =>
      have hkm : k = 8 := by
        rcases Nat.lt_trichotomy k 8 with hlt | heq | hgt
        · exact absurd (by interval_cases k <;> assumption) hfail
        · exact heq
        · exact absurd (hpre 8 hgt) h8
      subst hkm
      simp [init_ili9341_module, initialDriverState, disable_cs_pin, HAL_GPIO_WritePin, emit,
            hardware_reset_run, software_reset_run,
            power_control_1_run_ok, power_control_1_run_fail,
            vcom_control_1_run_ok, vcom_control_1_run_fail,
            vcom_control_2_run_ok, vcom_control_2_run_fail,
            memory_access_control_run_ok, memory_access_control_run_fail,
            pixel_format_run_ok, pixel_format_run_fail,
            display_function_control_run_ok, display_function_control_run_fail,
            exit_sleep_mode_run, turn_display_on_run, GPIO_PIN_SET,
            h0, h1, h2, h3, h4, h5, h6, h7, h8]
    by_cases h9 : HAL_ret_handler (env 9) = ILI9341_EC_OK
    case neg =>
      have hkm : k = 9 := by
        rcases Nat.lt_trichotomy k 9 with hlt | heq | hgt
        · exact absurd (by interval_cases k <;> assumption) hfail
        · exact heq
        · exact absurd (hpre 9 hgt) h9
      subst hkm
      simp [init_ili9341_module, initialDriverState, disable_cs_pin, HAL_GPIO_WritePin, emit,
            hardware_reset_run, software_reset_run,
            power_control_1_run_ok, power_control_1_run_fail,
            vcom_control_1_run_ok, vcom_control_1_run_fail,
            vcom_control_2_run_ok, vcom_control_2_run_fail,
            memory_access_control_run_ok, memory_access_control_run_fail,
            pixel_format_run_ok, pixel_format_run_fail,
            display_function_control_run_ok, display_function_control_run_fail,
            exit_sleep_mode_run, turn_display_on_run, GPIO_PIN_SET,
            h0, h1, h2, h3, h4, h5, h6, h7, h8, h9]
    by_cases h10 : HAL_ret_handler (env 10) = ILI9341_EC_OK
    case neg =>
      have hkm : k = 10 := by
        rcases Nat.lt_trichotomy k 10 with hlt | heq | hgt
        · exact absurd (by interval_cases k <;> assumption) hfail
        · exact heq
        · exact absurd (hpre 10 hgt) h10
      subst hkm
      simp [init_ili9341_module, initialDriverState, disable_cs_pin, HAL_GPIO_WritePin, emit,
            hardware_reset_run, software_reset_run,
            power_control_1_run_ok, power_control_1_run_fail,
            vcom_control_1_run_ok, vcom_control_1_run_fail,
            vcom_control_2_run_ok, vcom_control_2_run_fail,
            memory_access_control_run_ok, memory_access_control_run_fail,
            pixel_format_run_ok, pixel_format_run_fail,
            display_function_control_run_ok, display_function_control_run_fail,
            exit_sleep_mode_run, turn_display_on_run, GPIO_PIN_SET,
            h0, h1, h2, h3, h4, h5, h6, h7, h8, h9, h10]
    by_cases h11 : HAL_ret_handler (env 11) = ILI9341_EC_OK
    case neg =>
      have hkm : k = 11 := by
        rcases Nat.lt_trichotomy k 11 with hlt | heq | hgt
        · exact absurd (by interval_cases k <;> assumption) hfail
        · exact heq
        · exact absurd (hpre 11 hgt) h11
      subst hkm
      simp [init_ili9341_module, initialDriverState, disable_cs_pin, HAL_GPIO_WritePin, emit,
            hardware_reset_run, software_reset_run,
            power_control_1_run_ok, power_control_1_run_fail,
            vcom_control_1_run_ok, vcom_control_1_run_fail,
            vcom_control_2_run_ok, vcom_control_2_run_fail,
            memory_access_control_run_ok, memory_access_control_run_fail,
            pixel_format_run_ok, pixel_format_run_fail,
            display_function_control_run_ok, display_function_control_run_fail,
            exit_sleep_mode_run, turn_display_on_run, GPIO_PIN_SET,
            h0, h1, h2, h3, h4, h5, h6, h7, h8, h9, h10, h11]
    by_cases h12 : HAL_ret_handler (env 12) = ILI9341_EC_OK
    case neg =>
      have hkm : k = 12 := by
        rcases Nat.lt_trichotomy k 12 with hlt | heq | hgt
        · exact absurd (by interval_cases k <;> assumption) hfail
        · exact heq
        · exact absurd (hpre 12 hgt) h12
      subst hkm
      simp [init_ili9341_module, initialDriverState, disable_cs_pin, HAL_GPIO_WritePin, emit,
            hardware_reset_run, software_reset_run,
            power_control_1_run_ok, power_control_1_run_fail,
            vcom_control_1_run_ok, vcom_control_1_run_fail,
            vcom_control_2_run_ok, vcom_control_2_run_fail,
            memory_access_control_run_ok, memory_access_control_run_fail,
            pixel_format_run_ok, pixel_format_run_fail,
            display_function_control_run_ok, display_function_control_run_fail,
            exit_sleep_mode_run, turn_display_on_run, GPIO_PIN_SET,
            h0, h1, h2, h3, h4, h5, h6, h7, h8, h9, h10, h11, h12]
    by_cases h13 : HAL_ret_handler (env 13) = ILI9341_EC_OK
    case neg =>
      have hkm : k = 13 := by
        rcases Nat.lt_trichotomy k 13 with hlt | heq | hgt
        · exact absurd (by interval_cases k <;> assumption) hfail
        · exact heq
        · exact absurd (hpre 13 hgt) h13
      subst hkm
      simp [init_ili9341_module, initialDriverState, disable_cs_pin, HAL_GPIO_WritePin, emit,
            hardware_reset_run, software_reset_run,
            power_control_1_run_ok, power_control_1_run_fail,
            vcom_control_1_run_ok, vcom_control_1_run_fail,
            vcom_control_2_run_ok, vcom_control_2_run_fail,
            memory_access_control_run_ok, memory_access_control_run_fail,
            pixel_format_run_ok, pixel_format_run_fail,
            display_function_control_run_ok, display_function_control_run_fail,
            exit_sleep_mode_run, turn_display_on_run, GPIO_PIN_SET,
            h0, h1, h2, h3, h4, h5, h6, h7, h8, h9, h10, h11, h12, h13]
    by_cases h14 : HAL_ret_handler (env 14) = ILI9341_EC_OK
    case neg =>
      have hkm : k = 14 := by
        rcases Nat.lt_trichotomy k 14 with hlt | heq | hgt
        · exact absurd (by interval_cases k <;> assumption) hfail
        · exact heq
        · exact absurd (hpre 14 hgt) h14
      subst hkm
      simp [init_ili9341_module, initialDriverState, disable_cs_pin, HAL_GPIO_WritePin, emit,
            hardware_reset_run, software_reset_run,
            power_control_1_run_ok, power_control_1_run_fail,
            vcom_control_1_run_ok, vcom_control_1_run_fail,
            vcom_control_2_run_ok, vcom_control_2_run_fail,
            memory_access_control_run_ok, memory_access_control_run_fail,
            pixel_format_run_ok, pixel_format_run_fail,
            display_function_control_run_ok, display_function_control_run_fail,
            exit_sleep_mode_run, turn_display_on_run, GPIO_PIN_SET,
            h0, h1, h2, h3, h4, h5, h6, h7, h8, h9, h10, h11, h12, h13, h14]
    exact absurd (by interval_cases k <;> assumption) hfail
  · exact ⟨by decide, by decide, by decide⟩

/-- Witness for C2 at the concrete environment failing on transmit 5. -/
theorem init_first_failure_C2_witness :
    (5 : Nat) < 15 ∧
    (init_ili9341_module vcom2ErrorEnv).1 = HAL_ret_handler (vcom2ErrorEnv 5) ∧
    (init_ili9341_module vcom2ErrorEnv).2.txCount = 5 + 1 := by
  refine ⟨by decide, ?_, ?_⟩
  · exact (init_first_failure_C2.1 vcom2ErrorEnv 5 (by decide)
      (by intro j hj; interval_cases j <;> decide) (by decide)).1
  · exact (init_first_failure_C2.1 vcom2ErrorEnv 5 (by decide)
      (by intro j hj; interval_cases j <;> decide) (by decide)).2


/-- C1: for every run of init_ili9341_module in which every transmit
reports success (the transport returns HAL_OK on every call), the driver
first disables chip select and performs the hardware reset, and then
transmits the command opcodes in exactly the order software reset 0x01,
power control 1 0xC0, VCOM control 1 0xC5, VCOM control 2 0xC7, memory
access control 0x36, pixel format 0x3A, display function control 0xB6,
sleep out 0x11, display on 0x29, and returns ILI9341_EC_OK. -/
theorem init_success_sequence_C1 (env : HAL_Env) (h : ∀ i, env i = HAL_OK) :
    (init_ili9341_module env).1 = ILI9341_EC_OK ∧
    commandsSent (init_ili9341_module env).2.events =
      [ILI9341_SOFTWARE_RESET_COMMAND, ILI9341_POWER_CONTROL_1_COMMAND,
       ILI9341_VCOM_CONTROL_1_COMMAND, ILI9341_VCOM_CONTROL_2_COMMAND,
       ILI9341_MEMORY_ACCESS_CONTROL_COMMAND, ILI9341_PIXEL_FORMAT_COMMAND,
       ILI9341_DISPLAY_FUNCTION_CONTROL_COMMAND, ILI9341_SLEEP_OUT_COMMAND,
       ILI9341_DISPLAY_ON_COMMAND] ∧
    (init_ili9341_module env).2.events.take 7 =
      [Event.writePin Pin.CS PinState.high,
       Event.writePin Pin.RESET PinState.high, Event.delay 1,
       Event.writePin Pin.RESET PinState.low, Event.delay 1,
       Event.writePin Pin.RESET PinState.high, Event.delay 5] := by
  have hall : ∀ i, HAL_ret_handler (env i) = ILI9341_EC_OK := fun i => by
    rw [h i]; exact HAL_ret_handler_HAL_OK
  rw [init_env_irrelevant_allOK env hall]
  exact ⟨by decide, by decide, by decide⟩

/-- Witness for C1 at the concrete all-OK environment. -/
theorem init_success_sequence_C1_witness :
    (∀ i, allOkEnv i = HAL_OK) ∧
    (init_ili9341_module allOkEnv).1 = ILI9341_EC_OK :=
  ⟨fun _ => rfl, (init_success_sequence_C1 allOkEnv (fun _ => rfl)).1⟩

/-- C3: the status translator maps HAL_BUSY and HAL_TIMEOUT to
ILI9341_EC_NR, maps HAL_ERROR to ILI9341_EC_ERR, and passes every other
value through unchanged.  It is a pure function of its argument, so it has
no side effect on the driver state. -/
theorem HAL_ret_handler_C3 (HAL_status : Nat) :
    ((HAL_status = HAL_BUSY ∨ HAL_status = HAL_TIMEOUT) →
       HAL_ret_handler HAL_status = ILI9341_EC_NR) ∧
    (HAL_status = HAL_ERROR → HAL_ret_handler HAL_status = ILI9341_EC_ERR) ∧
    (¬ HAL_status = HAL_BUSY → ¬ HAL_status = HAL_TIMEOUT → ¬ HAL_status = HAL_ERROR →
       HAL_ret_handler HAL_status = HAL_status) := by
  refine ⟨fun h => ?_, fun h => ?_, fun h1 h2 h3 => ?_⟩
  · rcases h with h | h <;> (subst h; decide)
  · subst h; decide
  · simp [HAL_ret_handler, h1, h2, h3]

/-- Witness for C3 at the four concrete translator inputs 2, 3, 1 and 7. -/
theorem HAL_ret_handler_C3_witness :
    HAL_ret_handler HAL_BUSY = ILI9341_EC_NR ∧
    HAL_ret_handler HAL_TIMEOUT = ILI9341_EC_NR ∧
    HAL_ret_handler HAL_ERROR = ILI9341_EC_ERR ∧
    HAL_ret_handler 7 = 7 :=
  ⟨(HAL_ret_handler_C3 HAL_BUSY).1 (Or.inl rfl),
   (HAL_ret_handler_C3 HAL_TIMEOUT).1 (Or.inr rfl),
   (HAL_ret_handler_C3 HAL_ERROR).2.1 rfl,
   (HAL_ret_handler_C3 7).2.2 (by decide) (by decide) (by decide)⟩

/-- C4: for every configuration step, every transport behaviour and every
starting state, the last write on the chip-select line when the step
returns is high (de-asserted) — no execution path, including the failing
ones, leaves chip select asserted. -/
theorem steps_release_cs_C4 (env : HAL_Env) (s : DriverState) (g vh vl vmf : Nat) :
    lastCsLevel (ili9341_software_reset env s).2.events = some PinState.high ∧
    lastCsLevel (ili9341_configure_power_control_1 g env s).2.events = some PinState.high ∧
    lastCsLevel (ili9341_configure_vcom_control_1 vh vl env s).2.events = some PinState.high ∧
    lastCsLevel (ili9341_configure_vcom_control_2 vmf env s).2.events = some PinState.high ∧
    lastCsLevel (ili9341_configure_memory_access_control env s).2.events = some PinState.high ∧
    lastCsLevel (ili9341_configure_pixel_format env s).2.events = some PinState.high ∧
    lastCsLevel (ili9341_configure_display_function_control env s).2.events = some PinState.high ∧
    lastCsLevel (ili9341_exit_sleep_mode env s).2.events = some PinState.high ∧
    lastCsLevel (ili9341_turn_display_on env s).2.events = some PinState.high := by
  refine ⟨?_, ?_, ?_, ?_, ?_, ?_, ?_, ?_, ?_⟩
  · rw [software_reset_run]; simp [lastCsLevel, List.foldl_append]
  · by_cases h : HAL_ret_handler (env s.txCount) = ILI9341_EC_OK
    · rw [power_control_1_run_ok g env s h]; simp [lastCsLevel, List.foldl_append]
    · rw [power_control_1_run_fail g env s h]; simp [lastCsLevel, List.foldl_append]
  · by_cases h : HAL_ret_handler (env s.txCount) = ILI9341_EC_OK
    · rw [vcom_control_1_run_ok vh vl env s h]; simp [lastCsLevel, List.foldl_append]
    · rw [vcom_control_1_run_fail vh vl env s h]; simp [lastCsLevel, List.foldl_append]
  · by_cases h : HAL_ret_handler (env s.txCount) = ILI9341_EC_OK
    · rw [vcom_control_2_run_ok vmf env s h]; simp [lastCsLevel, List.foldl_append]
    · rw [vcom_control_2_run_fail vmf env s h]; simp [lastCsLevel, List.foldl_append]
  · by_cases h : HAL_ret_handler (env s.txCount) = ILI9341_EC_OK
    · rw [memory_access_control_run_ok env s h]; simp [lastCsLevel, List.foldl_append]
    · rw [memory_access_control_run_fail env s h]; simp [lastCsLevel, List.foldl_append]
  · by_cases h : HAL_ret_handler (env s.txCount) = ILI9341_EC_OK
    · rw [pixel_format_run_ok env s h]; simp [lastCsLevel, List.foldl_append]
    · rw [pixel_format_run_fail env s h]; simp [lastCsLevel, List.foldl_append]
  · by_cases h : HAL_ret_handler (env s.txCount) = ILI9341_EC_OK
    · rw [display_function_control_run_ok env s h]; simp [lastCsLevel, List.foldl_append]
    · rw [display_function_control_run_fail env s h]; simp [lastCsLevel, List.foldl_append]
  · rw [exit_sleep_mode_run]; simp [lastCsLevel, List.foldl_append]
  · rw [turn_display_on_run]; simp [lastCsLevel, List.foldl_append]

/-- C5: the Memory Access Control data byte packed from the source fields
(mh = 0, bgr = 1 for BGR, ml = 0, and the write/read direction
sub-structure with mv = 0, mx = 1, my = 0, so that after packing mv sits
at bit 5, mx at bit 6 and my at bit 7 with the two reserved low bits zero)
equals 0x48, and whenever the command transmit verdict is OK the step
transmits exactly one data frame holding exactly that one byte. -/
theorem madctl_byte_C5 :
    ili9341_madctl_data_value = 0x48 ∧
    ∀ (env : HAL_Env) (s : DriverState),
      HAL_ret_handler (env s.txCount) = ILI9341_EC_OK →
      (ili9341_configure_memory_access_control env s).2.events =
        s.events ++
          [Event.writePin Pin.DC PinState.low, Event.writePin Pin.CS PinState.low,
           Event.spiTx [ILI9341_MEMORY_ACCESS_CONTROL_COMMAND],
           Event.writePin Pin.DC PinState.high,
           Event.spiTx [ili9341_madctl_data_value], Event.writePin Pin.CS PinState.high] := by
  refine ⟨by decide, fun env s h => ?_⟩
  rw [memory_access_control_run_ok env s h]
  simp [ili9341_madctl_data_value_eq]

/-- Witness for C5 at the all-OK environment from the initial state. -/
theorem madctl_byte_C5_witness :
    HAL_ret_handler (allOkEnv initialDriverState.txCount) = ILI9341_EC_OK ∧
    (ili9341_configure_memory_access_control allOkEnv initialDriverState).2.events =
      initialDriverState.events ++
        [Event.writePin Pin.DC PinState.low, Event.writePin Pin.CS PinState.low,
         Event.spiTx [ILI9341_MEMORY_ACCESS_CONTROL_COMMAND],
         Event.writePin Pin.DC PinState.high,
         Event.spiTx [ili9341_madctl_data_value], Event.writePin Pin.CS PinState.high] :=
  ⟨by decide, madctl_byte_C5.2 allOkEnv initialDriverState (by decide)⟩

/-- C6: the Pixel Format data byte packed from the source fields
(dbi = 0x05 at bits 0-2, dpi = 0x05 at bits 4-6, bits 3 and 7 zero)
equals 0x55, and on every call of the step — from any driver state, i.e.
regardless of how many calls happened before — whose command transmit
verdict is OK, the single transmitted data frame holds exactly that byte,
so repeated calls are idempotent with respect to the transmitted payload. -/
theorem pixel_format_byte_C6 :
    ili9341_pixel_format_data_value = 0x55 ∧
    ∀ (env : HAL_Env) (s : DriverState),
      HAL_ret_handler (env s.txCount) = ILI9341_EC_OK →
      (ili9341_configure_pixel_format env s).2.events =
        s.events ++
          [Event.writePin Pin.DC PinState.low, Event.writePin Pin.CS PinState.low,
           Event.spiTx [ILI9341_PIXEL_FORMAT_COMMAND],
           Event.writePin Pin.DC PinState.high,
           Event.spiTx [ili9341_pixel_format_data_value], Event.writePin Pin.CS PinState.high] := by
  refine ⟨by decide, fun env s h => ?_⟩
  rw [pixel_format_run_ok env s h]
  simp [ili9341_pixel_format_data_value_eq]

/-- Witness for C6 at the all-OK environment from a state with a nonzero
call history (transmit count 4). -/
theorem pixel_format_byte_C6_witness :
    HAL_ret_handler (allOkEnv (DriverState.txCount ⟨[], 4, 0, none⟩)) = ILI9341_EC_OK ∧
    (ili9341_configure_pixel_format allOkEnv ⟨[], 4, 0, none⟩).2.events =
      ([] : List Event) ++
        [Event.writePin Pin.DC PinState.low, Event.writePin Pin.CS PinState.low,
         Event.spiTx [ILI9341_PIXEL_FORMAT_COMMAND],
         Event.writePin Pin.DC PinState.high,
         Event.spiTx [ili9341_pixel_format_data_value], Event.writePin Pin.CS PinState.high] :=
  ⟨by decide, pixel_format_byte_C6.2 allOkEnv ⟨[], 4, 0, none⟩ (by decide)⟩

/-- C7 as stated is false: in the successful all-OK initialization run the
number of distinct command opcodes transmitted is not 8. -/
theorem init_distinct_opcodes_not8_C7 :
    ¬ ((commandsSent (init_ili9341_module allOkEnv).2.events).dedup.length = 8) := by
  decide

/-- C7 (amended): in every successful initialization run, the total number
of distinct command opcodes transmitted by the sequencer equals 9. -/
theorem init_distinct_opcodes_C7 (env : HAL_Env) (h : ∀ i, env i = HAL_OK) :
    (commandsSent (init_ili9341_module env).2.events).dedup.length = 9 := by
  have hall : ∀ i, HAL_ret_handler (env i) = ILI9341_EC_OK := fun i => by
    rw [h i]; exact HAL_ret_handler_HAL_OK
  rw [init_env_irrelevant_allOK env hall]
  decide

/-- Witness for the amended C7 at the concrete all-OK environment. -/
theorem init_distinct_opcodes_C7_witness :
    (∀ i, allOkEnv i = HAL_OK) ∧
    (commandsSent (init_ili9341_module allOkEnv).2.events).dedup.length = 9 :=
  ⟨fun _ => rfl, init_distinct_opcodes_C7 allOkEnv (fun _ => rfl)⟩

/-- C8: from every driver state, the hardware reset procedure appends to
the trace exactly the reset-line writes high, low, high, in that literal
order, interleaved with delays of at least 1, 1 and 5 time units
respectively; it produces only this trace and returns no status value. -/
theorem hardware_reset_order_C8 (s : DriverState) :
    ∃ d1 d2 d3 : Nat, 1 ≤ d1 ∧ 1 ≤ d2 ∧ 5 ≤ d3 ∧
      (ili9341_hardware_reset s).events = s.events ++
        [Event.writePin Pin.RESET PinState.high, Event.delay d1,
         Event.writePin Pin.RESET PinState.low, Event.delay d2,
         Event.writePin Pin.RESET PinState.high, Event.delay d3] := by
  refine ⟨1, 1, 5, le_refl 1, le_refl 1, le_refl 5, ?_⟩
  rw [hardware_reset_run]

/-- C9 is violated by the code: the Display Function Control step stores
three bytes into its local payload buffer although the buffer is declared
with ILI9341_DISPLAY_FUNCTION_CONTROL_DATA_SIZE = 2 elements — the store
at index 2 is out of bounds — and the byte count passed to the transmit
call (the declared size 2, which is also the length of the in-bounds
buffer contents) differs from the number of payload bytes the step stores. -/
theorem dfc_buffer_overflow_C9 :
    ¬ (∀ p ∈ ili9341_dfc_stores, p.1 < ILI9341_DISPLAY_FUNCTION_CONTROL_DATA_SIZE) ∧
    ili9341_dfc_stores.length = 3 ∧
    ili9341_dfc_buffer.length = ILI9341_DISPLAY_FUNCTION_CONTROL_DATA_SIZE ∧
    ¬ (ili9341_dfc_stores.length = ILI9341_DISPLAY_FUNCTION_CONTROL_DATA_SIZE) := by
  refine ⟨?_, by decide, by decide, by decide⟩
  intro hall
  exact absurd (hall (2, 0x27) (by decide)) (by decide)

/-- C10: for every transport behaviour and every starting state, after the
Pixel Format step returns — also when its verdict is non-OK — the stored
bits-per-pixel mode equals ILI9341_BPP_16 and the fill-screen dispatch
pointer refers to the 16 bpp routine, because the step commits both before
issuing any transmit. -/
theorem pixel_format_commit_C10 (env : HAL_Env) (s : DriverState) :
    (ili9341_configure_pixel_format env s).2.ili9341_bpp_type = ILI9341_BPP_16 ∧
    (ili9341_configure_pixel_format env s).2.p_ili9341_fill_screen =
      some FillRoutine.fillScreen16bpp := by
  by_cases h : HAL_ret_handler (env s.txCount) = ILI9341_EC_OK
  · rw [pixel_format_run_ok env s h]; exact ⟨rfl, rfl⟩
  · rw [pixel_format_run_fail env s h]; exact ⟨rfl, rfl⟩

end ILI9341
